import Mathlib

set_option maxRecDepth 8192

/-!
Shallow embedding of the research-agent pipeline core (single-file React app):
source records, the library store with its JSON-shaped persistence, the
merge/dedup logic, the three-stage pipeline orchestrator, and the chat
refinement loop.  State updates of the component are modelled as explicit
record updates; each agent call's outcome is passed in as an
`Except String String` (error message / response text), and the network calls
issued by a pipeline run are collected in a trace of
(system prompt, user message) pairs.
-/

/-- A working-set / library source record: `{ id, type, title, content, date }`. -/
structure Source where
  id : String
  type : String
  title : String
  content : String
  date : String
deriving DecidableEq

/-- A saved draft record: `{ id, title, content, outline, analysis, date, format }`. -/
structure Draft where
  id : String
  title : String
  content : String
  outline : String
  analysis : String
  date : String
  format : String
deriving DecidableEq

/-- A chat transcript turn: `{ role, content }`. -/
structure ChatMessage where
  role : String
  content : String
deriving DecidableEq

/-- The persisted aggregate: `{ sources, drafts, notes }`. -/
structure Library where
  sources : List Source
  drafts : List Draft
  notes : List Source
deriving DecidableEq

def emptyLibrary : Library := { sources := [], drafts := [], notes := [] }

/-- The JSON value universe used for the serialized library
(`JSON.stringify` / `JSON.parse` round-trip is modelled at the tree level;
every field of the library is a string, an array, or an object). -/
inductive Json where
  | str : String → Json
  | arr : List Json → Json
  | obj : List (String × Json) → Json

def sourceToJson (s : Source) : Json :=
  Json.obj [("id", Json.str s.id), ("type", Json.str s.type), ("title", Json.str s.title),
            ("content", Json.str s.content), ("date", Json.str s.date)]

def sourceFromJson : Json → Option Source
  | Json.obj [("id", Json.str i), ("type", Json.str t), ("title", Json.str ti),
              ("content", Json.str c), ("date", Json.str d)] =>
      some { id := i, type := t, title := ti, content := c, date := d }
  | _ => none

def draftToJson (d : Draft) : Json :=
  Json.obj [("id", Json.str d.id), ("title", Json.str d.title), ("content", Json.str d.content),
            ("outline", Json.str d.outline), ("analysis", Json.str d.analysis),
            ("date", Json.str d.date), ("format", Json.str d.format)]

def draftFromJson : Json → Option Draft
  | Json.obj [("id", Json.str i), ("title", Json.str ti), ("content", Json.str c),
              ("outline", Json.str o), ("analysis", Json.str a),
              ("date", Json.str dt), ("format", Json.str f)] =>
      some { id := i, title := ti, content := c, outline := o, analysis := a,
             date := dt, format := f }
  | _ => none

/-- Decode a JSON array element-wise; any failing element fails the whole list. -/
def decodeList {α : Type} (dec : Json → Option α) : List Json → Option (List α)
  | [] => some []
  | j :: t =>
    match dec j, decodeList dec t with
    | some a, some r => some (a :: r)
    | _, _ => none

def libToJson (lib : Library) : Json :=
  Json.obj [("sources", Json.arr (lib.sources.map sourceToJson)),
            ("drafts", Json.arr (lib.drafts.map draftToJson)),
            ("notes", Json.arr (lib.notes.map sourceToJson))]

def libFromJson : Json → Option Library
  | Json.obj [("sources", Json.arr ss), ("drafts", Json.arr ds), ("notes", Json.arr ns)] =>
    match decodeList sourceFromJson ss, decodeList draftFromJson ds,
          decodeList sourceFromJson ns with
    | some s, some d, some n => some { sources := s, drafts := d, notes := n }
    | _, _, _ => none
  | _ => none

/-- `loadLibrary`: the stored value parsed back, an empty three-list structure
when nothing is stored or the stored value is unparsable. -/
def loadLibraryFrom (store : Option Json) : Library :=
  match store with
  | none => emptyLibrary
  | some j => (libFromJson j).getD emptyLibrary

/-- `saveLibrary`: stores the serialized library under the single fixed key. -/
def saveLibraryTo (lib : Library) : Option Json :=
  some (libToJson lib)

/-- The dedup merge used by `saveSourcesAll`: incoming records whose `id`
already occurs in `existing` are dropped, the survivors are appended. -/
def mergeSources (existing incoming : List Source) : List Source :=
  existing ++ incoming.filter (fun s => !(existing.any (fun ls => ls.id == s.id)))

-- ─── Agent prompts (configuration constants of the pipeline) ───

def RESEARCH_AGENT : String :=
  "You are a Research Analyst agent. Your job is to analyze raw research material (articles, notes, excerpts) and extract:\n1. KEY INSIGHTS — the most important ideas, claims, and findings\n2. PATTERNS — recurring themes, contradictions, or emerging trends across sources  \n3. DATA POINTS — specific stats, quotes, or evidence worth citing\n4. CONTRARIAN ANGLES — surprising takes or underexplored perspectives\n5. KNOWLEDGE GAPS — what\x27s missing or what questions remain unanswered\n\nBe thorough but concise. Structure your analysis with clear headers. Focus on signal over noise.\nIf a topic/angle is specified, bias your analysis toward that angle."

def OUTLINE_AGENT : String :=
  "You are a Writing Strategist agent. Given a research analysis, produce a detailed content outline that includes:\n1. TITLE OPTIONS — 3 compelling title candidates  \n2. HOOK — a strong opening paragraph or lede concept\n3. STRUCTURE — ordered sections with:\n   - Section header\n   - Key argument for this section\n   - Supporting evidence to use (from the research)\n   - Transition to next section\n4. CONCLUSION — the main takeaway and call to action\n5. METADATA — suggested word count, tone, target audience\n\nMake the outline actionable — a writer should be able to draft from this alone."

def WRITING_AGENT : String :=
  "You are a Senior Writer agent. Given a research analysis and outline, produce a publication-ready draft.\n\nGuidelines:\n- Write with clarity and conviction. No filler.\n- Every paragraph earns its place — high insight density.\n- Use concrete examples and data from the research.\n- Voice: thoughtful practitioner, not generic content creator.\n- Strong opening that hooks immediately.\n- Clean transitions between sections.\n- Ending that resonates — not a bland summary.\n\nProduce the FULL draft. Do not abbreviate or skip sections."

def CHAT_REFINE : String :=
  "You are an editorial assistant helping refine a draft. The user will ask for changes — tone shifts, structural edits, expanding sections, cutting fluff, adding examples, etc.\n\nRules:\n- When asked to edit, output the FULL revised version (not just the changed parts).\n- Maintain the original voice unless asked to change it.\n- Be opinionated — suggest improvements proactively.\n- If the user\x27s request is vague, ask a clarifying question."

/-- An output-format chip: `{ id, label }`. -/
structure FormatOption where
  id : String
  label : String
deriving DecidableEq

/-- The format selector's fixed option list. -/
def FORMATS : List FormatOption :=
  [{ id := "blog", label := "Blog Post" },
   { id := "thread", label := "Thread" },
   { id := "newsletter", label := "Newsletter" },
   { id := "outline", label := "Outline Only" }]

def formatIds : List String := FORMATS.map (fun f => f.id)

-- ─── Component state ───

/-- The mutable state of the component that the orchestration core touches.
`store` models the persistence substrate (the single fixed storage key);
fields not reached by any modelled operation are omitted. -/
structure AppState where
  sources : List Source
  topicAngle : String
  pipelineStage : Nat
  researchAnalysis : String
  outline : String
  draft : String
  selectedFormat : String
  chatMessages : List ChatMessage
  chatInput : String
  chatLoading : Bool
  library : Library
  store : Option Json
  error : String
  view : String
  noteInput : String
  noteTitle : String

/-- The initial component state (`useState` initial values). -/
def initState : AppState :=
  { sources := [], topicAngle := "", pipelineStage := 0, researchAnalysis := "",
    outline := "", draft := "", selectedFormat := "blog", chatMessages := [],
    chatInput := "", chatLoading := false, library := emptyLibrary, store := none,
    error := "", view := "collect", noteInput := "", noteTitle := "" }

-- ─── Pipeline orchestrator ───

/-- `angleStr`: the optional topic/angle annotation. -/
def angleStrOf (st : AppState) : String :=
  if st.topicAngle = "" then "" else "\n\nTOPIC/ANGLE: " ++ st.topicAngle

/-- `allContent`: every source rendered and joined by blank lines. -/
def corpusOf (st : AppState) : String :=
  String.intercalate "\n\n"
    (st.sources.enum.map (fun p =>
      "--- SOURCE " ++ toString (p.1 + 1) ++ ": " ++ p.2.title ++ " ---\n" ++ p.2.content))

/-- `formatNote`: the output-format directive handed to stages 2 and 3. -/
def formatNoteOf (st : AppState) : String :=
  "Output format requested: " ++ st.selectedFormat

/-- `runPipeline`, with each stage's agent-call outcome passed in.  Returns the
new state together with the trace of issued agent calls
(system prompt, user message).  The failure message interpolates the
`pipelineStage` value captured at entry (the value closed over by the
handler). -/
def runPipeline (research outl writing : Except String String) (st : AppState) :
    AppState × List (String × String) :=
  if st.sources.length = 0 then
    ({ st with error := "Add at least one source first." }, [])
  else
    let stageAtEntry := st.pipelineStage
    let st1 := { st with
      error := "", view := "pipeline", pipelineStage := 1,
      researchAnalysis := "", outline := "", draft := "" }
    let allContent := corpusOf st
    let angleStr := angleStrOf st
    let researchCall := (RESEARCH_AGENT, allContent ++ angleStr)
    match research with
    | Except.error e =>
        ({ st1 with
            error := "Pipeline failed at stage " ++ toString stageAtEntry ++ ": " ++ e,
            pipelineStage := 0 }, [researchCall])
    | Except.ok analysis =>
        let st2 := { st1 with researchAnalysis := analysis, pipelineStage := 2 }
        let formatNote := formatNoteOf st
        let outlineCall :=
          (OUTLINE_AGENT, "RESEARCH ANALYSIS:\n" ++ analysis ++ "\n\n" ++ formatNote ++ angleStr)
        match outl with
        | Except.error e =>
            ({ st2 with
                error := "Pipeline failed at stage " ++ toString stageAtEntry ++ ": " ++ e,
                pipelineStage := 0 }, [researchCall, outlineCall])
        | Except.ok outlineResult =>
            let st3 := { st2 with outline := outlineResult, pipelineStage := 3 }
            let writingCall :=
              (WRITING_AGENT, "RESEARCH ANALYSIS:\n" ++ analysis ++ "\n\nOUTLINE:\n" ++
                outlineResult ++ "\n\n" ++ formatNote ++ angleStr)
            match writing with
            | Except.error e =>
                ({ st3 with
                    error := "Pipeline failed at stage " ++ toString stageAtEntry ++ ": " ++ e,
                    pipelineStage := 0 }, [researchCall, outlineCall, writingCall])
            | Except.ok draftResult =>
                ({ st3 with draft := draftResult, pipelineStage := 4 },
                 [researchCall, outlineCall, writingCall])

-- ─── Chat refinement ───

/-- JS `String.prototype.trim`: strip leading and trailing whitespace
(written over the character list so it evaluates structurally). -/
def jsTrim (s : String) : String :=
  String.mk (((s.data.dropWhile Char.isWhitespace).reverse.dropWhile Char.isWhitespace).reverse)

/-- `sendChat`, with the agent-call outcome passed in.  Returns the new state
and the conversation sent to the agent (the synthetic two-turn preamble
followed by the live transcript).  The full-rewrite test
`response.length > draft.length * 0.5` is rendered as
`2 * response.length > draft.length`, which is exactly equivalent on
integer lengths. -/
def sendChat (result : Except String String) (st : AppState) :
    AppState × List ChatMessage :=
  if jsTrim st.chatInput = "" ∨ st.chatLoading = true then (st, [])
  else
    let userMsg := jsTrim st.chatInput
    let newMessages := st.chatMessages ++ [{ role := "user", content := userMsg }]
    let apiMessages :=
      [{ role := "user",
         content := "Here is the current draft:\n\n" ++ st.draft ++
           "\n\n---\nThe user will now ask for edits." },
       { role := "assistant", content := "I have the draft. What changes would you like?" }]
      ++ newMessages
    match result with
    | Except.ok response =>
        ({ st with
            chatInput := "",
            chatMessages := newMessages ++ [{ role := "assistant", content := response }],
            draft := if 2 * response.length > st.draft.length then response else st.draft,
            chatLoading := false }, apiMessages)
    | Except.error e =>
        ({ st with
            chatInput := "",
            chatMessages := newMessages ++ [{ role := "assistant", content := "Error: " ++ e }],
            chatLoading := false }, apiMessages)

-- ─── Library mutations ───

/-- `addNote`: append a fresh note record to the working set and merge it into
the library's notes list, persisting immediately.  Whitespace-only input is a
no-op. -/
def addNote (newId date : String) (st : AppState) : AppState :=
  if jsTrim st.noteInput = "" then st
  else
    let note : Source :=
      { id := newId, type := "note",
        title := if st.noteTitle = "" then "Note" else st.noteTitle,
        content := st.noteInput, date := date }
    let newLib := { st.library with notes := st.library.notes ++ [note] }
    { st with
      sources := st.sources ++ [note], library := newLib,
      store := saveLibraryTo newLib, noteInput := "", noteTitle := "" }

/-- `saveDraft`: freeze the current pipeline outputs into a library draft
record and persist; a no-op when there is no draft. -/
def saveDraft (newId date : String) (st : AppState) : AppState :=
  if st.draft = "" then st
  else
    let d : Draft :=
      { id := newId, title := if st.topicAngle = "" then "Untitled draft" else st.topicAngle,
        content := st.draft, outline := st.outline, analysis := st.researchAnalysis,
        date := date, format := st.selectedFormat }
    let newLib := { st.library with drafts := st.library.drafts ++ [d] }
    { st with library := newLib, store := saveLibraryTo newLib }

/-- `saveSourcesAll`: merge the working source set into the library's sources
list (dedup by `id`) and persist; a no-op when nothing new survives. -/
def saveSourcesAll (st : AppState) : AppState :=
  let newSources :=
    st.sources.filter (fun s => !(st.library.sources.any (fun ls => ls.id == s.id)))
  if newSources.length = 0 then st
  else
    let newLib := { st.library with sources := st.library.sources ++ newSources }
    { st with library := newLib, store := saveLibraryTo newLib }

/-- `deleteLibItem` on the library value: remove the matching record from
exactly one of the three lists (any other category name leaves the library
unchanged). -/
def deleteFromLib (category idv : String) (lib : Library) : Library :=
  if category = "sources" then { lib with sources := lib.sources.filter (fun i => i.id != idv) }
  else if category = "drafts" then { lib with drafts := lib.drafts.filter (fun i => i.id != idv) }
  else if category = "notes" then { lib with notes := lib.notes.filter (fun i => i.id != idv) }
  else lib

/-- `deleteLibItem`: delete from the library and persist. -/
def deleteLibItem (category idv : String) (st : AppState) : AppState :=
  let newLib := deleteFromLib category idv st.library
  { st with library := newLib, store := saveLibraryTo newLib }

-- ─── Invariants ───

/-- Per-list id uniqueness for source lists. -/
def uniqueSourceIds (l : List Source) : Prop :=
  (l.map (fun s => s.id)).Nodup

/-- Per-list id uniqueness for draft lists. -/
def uniqueDraftIds (l : List Draft) : Prop :=
  (l.map (fun d => d.id)).Nodup

/-- The library invariant: within each of the three lists, `id` is unique. -/
def libraryInv (lib : Library) : Prop :=
  uniqueSourceIds lib.sources ∧ uniqueDraftIds lib.drafts ∧ uniqueSourceIds lib.notes

-- ─── Concrete values for witnesses ───

def srcA : Source :=
  { id := "s1", type := "text", title := "Alpha", content := "alpha body", date := "2026-01-01" }

def srcB : Source :=
  { id := "s2", type := "url", title := "Beta", content := "beta body", date := "2026-01-02" }

def srcA2 : Source :=
  { id := "s1", type := "note", title := "AlphaDup", content := "dup body", date := "2026-01-03" }

def stPipe : AppState :=
  { initState with sources := [srcA, srcB], topicAngle := "angle", selectedFormat := "thread" }

def draft1000 : String := String.mk (List.replicate 1000 'a')

def resp600 : String := String.mk (List.replicate 600 'b')

def resp400 : String := String.mk (List.replicate 400 'c')

def stChat : AppState :=
  { initState with draft := draft1000, chatInput := "tighten the intro", chatLoading := false }

def stNote : AppState :=
  { initState with noteInput := "my insight", noteTitle := "" }

def noteRec : Source :=
  { id := "n1", type := "note", title := "Note", content := "my insight", date := "2026-02-02" }

def stLib : AppState :=
  { initState with
      sources := [srcA, srcB], draft := "current draft", outline := "o",
      researchAnalysis := "ra", topicAngle := "t", noteInput := "kb note",
      library := { sources := [srcB], drafts := [], notes := [] } }

-- ─── Helper lemmas ───

theorem sourceFromJson_toJson (s : Source) : sourceFromJson (sourceToJson s) = some s := rfl

theorem draftFromJson_toJson (d : Draft) : draftFromJson (draftToJson d) = some d := rfl

theorem decodeList_map {α : Type} (dec : Json → Option α) (enc : α → Json)
    (h : ∀ a, dec (enc a) = some a) (l : List α) :
    decodeList dec (l.map enc) = some l := by
  induction l with
  | nil => rfl
  | cons a t ih => simp [decodeList, h, ih]

theorem length_ne_zero_of_ne_nil {α : Type} {l : List α} (h : l ≠ []) :
    ¬ l.length = 0 := by
  simpa [List.length_eq_zero] using h

-- ─── Claims ───

/-- Claim C9: saving a Library to the persistence backend and loading it back
yields a Library structurally equal to the original across all three lists. -/
theorem library_load_save_roundtrip (L : Library) :
    loadLibraryFrom (saveLibraryTo L) = L := by
  have hs := decodeList_map sourceFromJson sourceToJson sourceFromJson_toJson L.sources
  have hd := decodeList_map draftFromJson draftToJson draftFromJson_toJson L.drafts
  have hn := decodeList_map sourceFromJson sourceToJson sourceFromJson_toJson L.notes
  simp [loadLibraryFrom, saveLibraryTo, libToJson, libFromJson, hs, hd, hn]

/-- Claim C3: invoking the pipeline with an empty working source set issues no
agent call, surfaces the validation error, and leaves every other state field
(in particular the stage marker and all pipeline artifacts) unchanged. -/
theorem pipeline_emptySources (st : AppState) (research outl writing : Except String String)
    (h : st.sources = []) :
    runPipeline research outl writing st =
      ({ st with error := "Add at least one source first." }, []) := by
  simp [runPipeline, h]

theorem pipeline_emptySources_witness :
    runPipeline (Except.ok "a") (Except.ok "b") (Except.ok "c") initState =
      ({ initState with error := "Add at least one source first." }, []) :=
  pipeline_emptySources initState (Except.ok "a") (Except.ok "b") (Except.ok "c") rfl

/-- Claim C2: when the Outline-stage call fails after the Research stage
succeeded, the stage marker is reset to 0, `researchAnalysis` keeps the
Research result, and `outline` and `draft` are empty. -/
theorem pipeline_outlineFailure (st : AppState) (a e : String)
    (writing : Except String String) (h : st.sources ≠ []) :
    ((runPipeline (Except.ok a) (Except.error e) writing st).1.pipelineStage = 0) ∧
    ((runPipeline (Except.ok a) (Except.error e) writing st).1.researchAnalysis = a) ∧
    ((runPipeline (Except.ok a) (Except.error e) writing st).1.outline = "") ∧
    ((runPipeline (Except.ok a) (Except.error e) writing st).1.draft = "") := by
  simp [runPipeline, length_ne_zero_of_ne_nil h]

theorem pipeline_outlineFailure_witness :
    ((runPipeline (Except.ok "ANALYSIS") (Except.error "boom") (Except.ok "w") stPipe).1.pipelineStage = 0) ∧
    ((runPipeline (Except.ok "ANALYSIS") (Except.error "boom") (Except.ok "w") stPipe).1.researchAnalysis = "ANALYSIS") ∧
    ((runPipeline (Except.ok "ANALYSIS") (Except.error "boom") (Except.ok "w") stPipe).1.outline = "") ∧
    ((runPipeline (Except.ok "ANALYSIS") (Except.error "boom") (Except.ok "w") stPipe).1.draft = "") :=
  pipeline_outlineFailure stPipe "ANALYSIS" "boom" (Except.ok "w") (by decide)

/-- Claim C6: for a non-empty working source set, the Research agent's sole
user message is every source rendered as `--- SOURCE i: <title> ---` plus a
newline and the content, entries joined by blank lines, with the optional
topic/angle annotation appended when one is set. -/
theorem pipeline_researchCorpus (st : AppState) (research outl writing : Except String String)
    (h : st.sources ≠ []) :
    (runPipeline research outl writing st).2.head? =
      some (RESEARCH_AGENT,
        String.intercalate "\n\n"
          (st.sources.enum.map (fun p =>
            "--- SOURCE " ++ toString (p.1 + 1) ++ ": " ++ p.2.title ++ " ---\n" ++ p.2.content)) ++
        (if st.topicAngle = "" then "" else "\n\nTOPIC/ANGLE: " ++ st.topicAngle)) := by
  have hlen := length_ne_zero_of_ne_nil h
  cases research <;> cases outl <;> cases writing <;>
    simp [runPipeline, corpusOf, angleStrOf, hlen]

theorem pipeline_researchCorpus_witness :
    (runPipeline (Except.ok "a") (Except.ok "b") (Except.ok "c") stPipe).2.head? =
      some (RESEARCH_AGENT,
        "--- SOURCE 1: Alpha ---\nalpha body\n\n--- SOURCE 2: Beta ---\nbeta body\n\nTOPIC/ANGLE: angle") :=
  (pipeline_researchCorpus stPipe (Except.ok "a") (Except.ok "b") (Except.ok "c")
    (by decide)).trans (by decide)

/-- Claim C7 counterexample: the fixed format id set does not contain
`outline-only`; the fourth selector value is `outline`. -/
theorem formats_counterexample :
    ¬ ("outline-only" ∈ formatIds) ∧ ("outline" ∈ formatIds) := by decide

/-- Claim C7 (amended): the output-format selector takes values from exactly
the fixed enumerated set `{blog, thread, newsletter, outline}` and the
selected value is passed through verbatim inside the directive string
`Output format requested: <value>` to both the Outline and Writing stages. -/
theorem formats_passthrough (st : AppState) (a b c : String) (h : st.sources ≠ []) :
    formatIds = ["blog", "thread", "newsletter", "outline"] ∧
    (runPipeline (Except.ok a) (Except.ok b) (Except.ok c) st).2 =
      [(RESEARCH_AGENT, corpusOf st ++ angleStrOf st),
       (OUTLINE_AGENT, "RESEARCH ANALYSIS:\n" ++ a ++ "\n\n" ++
         ("Output format requested: " ++ st.selectedFormat) ++ angleStrOf st),
       (WRITING_AGENT, "RESEARCH ANALYSIS:\n" ++ a ++ "\n\nOUTLINE:\n" ++ b ++ "\n\n" ++
         ("Output format requested: " ++ st.selectedFormat) ++ angleStrOf st)] := by
  refine ⟨by decide, ?_⟩
  simp [runPipeline, formatNoteOf, length_ne_zero_of_ne_nil h]

theorem formats_passthrough_witness :
    formatIds = ["blog", "thread", "newsletter", "outline"] ∧
    (runPipeline (Except.ok "a") (Except.ok "b") (Except.ok "c") stPipe).2 =
      [(RESEARCH_AGENT, corpusOf stPipe ++ angleStrOf stPipe),
       (OUTLINE_AGENT, "RESEARCH ANALYSIS:\n" ++ "a" ++ "\n\n" ++
         ("Output format requested: " ++ stPipe.selectedFormat) ++ angleStrOf stPipe),
       (WRITING_AGENT, "RESEARCH ANALYSIS:\n" ++ "a" ++ "\n\nOUTLINE:\n" ++ "b" ++ "\n\n" ++
         ("Output format requested: " ++ stPipe.selectedFormat) ++ angleStrOf stPipe)] :=
  formats_passthrough stPipe "a" "b" "c" (by decide)

/-- Claim C1: on a successful refinement turn the draft is replaced by the
response exactly when the response's length strictly exceeds half the current
draft's length (`response.length > draft.length * 0.5`, i.e.
`2 * response.length > draft.length` on integer lengths), and is left
unchanged when the response's length is at most half the draft's length. -/
theorem sendChat_fullRewrite (st : AppState) (response : String)
    (h1 : jsTrim st.chatInput ≠ "") (h2 : st.chatLoading = false) :
    (2 * response.length > st.draft.length →
      (sendChat (Except.ok response) st).1.draft = response) ∧
    (2 * response.length ≤ st.draft.length →
      (sendChat (Except.ok response) st).1.draft = st.draft) := by
  constructor
  · intro hgt
    simp [sendChat, h1, h2, hgt]
  · intro hle
    have hn : ¬ (2 * response.length > st.draft.length) := Nat.not_lt.mpr hle
    simp [sendChat, h1, h2, hn]

theorem sendChat_fullRewrite_witness :
    ((sendChat (Except.ok resp600) stChat).1.draft = resp600) ∧
    ((sendChat (Except.ok resp400) stChat).1.draft = stChat.draft) :=
  ⟨(sendChat_fullRewrite stChat resp600 (by decide) rfl).1 (by decide),
   (sendChat_fullRewrite stChat resp400 (by decide) rfl).2 (by decide)⟩

/-- Claim C10: when a refinement-turn agent call fails, the draft is left
unchanged, the user turn stays in the transcript followed by an assistant turn
carrying the error description, and the loading flag is cleared so the session
can accept the next request. -/
theorem sendChat_failure (st : AppState) (e : String)
    (h1 : jsTrim st.chatInput ≠ "") (h2 : st.chatLoading = false) :
    ((sendChat (Except.error e) st).1.draft = st.draft) ∧
    ((sendChat (Except.error e) st).1.chatMessages =
      st.chatMessages ++
        [{ role := "user", content := jsTrim st.chatInput },
         { role := "assistant", content := "Error: " ++ e }]) ∧
    ((sendChat (Except.error e) st).1.chatLoading = false) := by
  simp [sendChat, h1, h2]

theorem sendChat_failure_witness :
    ((sendChat (Except.error "API 500") stChat).1.draft = stChat.draft) ∧
    ((sendChat (Except.error "API 500") stChat).1.chatMessages =
      stChat.chatMessages ++
        [{ role := "user", content := jsTrim stChat.chatInput },
         { role := "assistant", content := "Error: " ++ "API 500" }]) ∧
    ((sendChat (Except.error "API 500") stChat).1.chatLoading = false) :=
  sendChat_failure stChat "API 500" (by decide) rfl

/-- Claim C5: a note with non-whitespace content is appended as one record to
both the working source set and the library's notes list, and the updated
library is persisted in the same action; whitespace-only content is a no-op. -/
theorem addNote_spec (st : AppState) (newId date : String) :
    (jsTrim st.noteInput = "" → addNote newId date st = st) ∧
    (jsTrim st.noteInput ≠ "" →
      (addNote newId date st).sources =
        st.sources ++
          [{ id := newId, type := "note",
             title := if st.noteTitle = "" then "Note" else st.noteTitle,
             content := st.noteInput, date := date }] ∧
      (addNote newId date st).library.notes =
        st.library.notes ++
          [{ id := newId, type := "note",
             title := if st.noteTitle = "" then "Note" else st.noteTitle,
             content := st.noteInput, date := date }] ∧
      (addNote newId date st).store = saveLibraryTo (addNote newId date st).library) := by
  constructor
  · intro h
    simp [addNote, h]
  · intro h
    refine ⟨by simp [addNote, h], by simp [addNote, h], by simp [addNote, h]⟩

theorem addNote_spec_witness :
    (addNote "n1" "2026-02-02" stNote).sources = stNote.sources ++ [noteRec] ∧
    (addNote "n1" "2026-02-02" stNote).library.notes = stNote.library.notes ++ [noteRec] ∧
    (addNote "n1" "2026-02-02" stNote).store =
      saveLibraryTo (addNote "n1" "2026-02-02" stNote).library :=
  (addNote_spec stNote "n1" "2026-02-02").2 (by decide)

theorem filter_eq_nil_of_false {α : Type} {p : α → Bool} {l : List α}
    (h : ∀ a ∈ l, p a = false) : l.filter p = [] :=
  List.filter_eq_nil_iff.mpr (fun a ha => by simp [h a ha])

theorem mergeSources_take (L S : List Source) :
    (mergeSources L S).take L.length = L := by
  unfold mergeSources
  exact List.take_left L _

theorem mergeSources_drop (L S : List Source) :
    (mergeSources L S).drop L.length =
      S.filter (fun s => !(L.any (fun ls => ls.id == s.id))) := by
  unfold mergeSources
  exact List.drop_left L _

theorem mergeSources_dropped_dupes (L S : List Source) :
    ((mergeSources L S).drop L.length).filter
      (fun s => L.any (fun ls => ls.id == s.id)) = [] := by
  rw [mergeSources_drop]
  apply filter_eq_nil_of_false
  intro s hsF
  have hp := (List.mem_filter.mp hsF).2
  simpa using hp

theorem mergeSources_absorb (L S : List Source) :
    mergeSources (mergeSources L S) S = mergeSources L S := by
  have hall : ∀ s ∈ S, (mergeSources L S).any (fun ls => ls.id == s.id) = true := by
    intro s hs
    by_cases hL : L.any (fun ls => ls.id == s.id) = true
    · unfold mergeSources
      rw [List.any_append, hL, Bool.true_or]
    · have hLf : L.any (fun ls => ls.id == s.id) = false := Bool.eq_false_iff.mpr hL
      have hsF : s ∈ S.filter (fun x => !(L.any (fun ls => ls.id == x.id))) :=
        List.mem_filter.mpr ⟨hs, by simp [hLf]⟩
      have hF : (S.filter (fun x => !(L.any (fun ls => ls.id == x.id)))).any
          (fun ls => ls.id == s.id) = true :=
        List.any_eq_true.mpr ⟨s, hsF, by simp⟩
      unfold mergeSources
      rw [List.any_append, hF, Bool.or_true]
  show mergeSources L S ++
      S.filter (fun s => !((mergeSources L S).any (fun ls => ls.id == s.id))) = mergeSources L S
  rw [filter_eq_nil_of_false (fun s hs => by simp [hall s hs]), List.append_nil]

/-- Claim C4: merging an incoming source list into an existing one preserves
the existing records as a prefix in order, appends exactly the incoming
records whose id is new (in order), appends no record whose id already occurs
in the existing list, and is idempotent. -/
theorem mergeSources_spec (L S : List Source) :
    ((mergeSources L S).take L.length = L) ∧
    ((mergeSources L S).drop L.length =
      S.filter (fun s => !(L.any (fun ls => ls.id == s.id)))) ∧
    (((mergeSources L S).drop L.length).filter
      (fun s => L.any (fun ls => ls.id == s.id)) = []) ∧
    (mergeSources (mergeSources L S) S = mergeSources L S) :=
  ⟨mergeSources_take L S, mergeSources_drop L S,
   mergeSources_dropped_dupes L S, mergeSources_absorb L S⟩

theorem nodup_map_filter {α β : Type} (f : α → β) (q : α → Bool) (l : List α)
    (h : (l.map f).Nodup) : ((l.filter q).map f).Nodup :=
  h.sublist ((List.filter_sublist l).map f)

theorem mergeSources_ids_nodup (L S : List Source)
    (hL : (L.map (fun s => s.id)).Nodup) (hS : (S.map (fun s => s.id)).Nodup) :
    ((mergeSources L S).map (fun s => s.id)).Nodup := by
  unfold mergeSources
  rw [List.map_append]
  refine hL.append (nodup_map_filter _ _ _ hS) ?_
  intro a haL haF
  obtain ⟨s, hsF, rfl⟩ := List.mem_map.mp haF
  obtain ⟨hsS, hp⟩ := List.mem_filter.mp hsF
  obtain ⟨ls, hls, hid⟩ := List.mem_map.mp haL
  have hfalse : L.any (fun l2 => l2.id == s.id) = false := by simpa using hp
  have htrue : L.any (fun l2 => l2.id == s.id) = true :=
    List.any_eq_true.mpr ⟨ls, hls, by rw [hid]; simp⟩
  rw [htrue] at hfalse
  simp at hfalse

theorem nodup_append_single_of {β : Type} (ids : List β) (b : β)
    (h : ids.Nodup) (hb : ¬ b ∈ ids) : (ids ++ [b]).Nodup := by
  simp [List.nodup_append, h, hb]

/-- Claim C8: each library mutation (merging the working sources, saving a
draft, ingesting a note, deleting an item) preserves per-list uniqueness of
`id`, given that the working set's ids are pairwise distinct and the freshly
generated id does not already occur in the target lists. -/
theorem library_ops_preserve_unique (st : AppState) (newId date category delId : String)
    (hinv : libraryInv st.library)
    (hws : (st.sources.map (fun s => s.id)).Nodup)
    (hd : ¬ newId ∈ st.library.drafts.map (fun x => x.id))
    (hn : ¬ newId ∈ st.library.notes.map (fun x => x.id)) :
    libraryInv (saveSourcesAll st).library ∧
    libraryInv (saveDraft newId date st).library ∧
    libraryInv (addNote newId date st).library ∧
    libraryInv (deleteLibItem category delId st).library := by
  obtain ⟨hs, hdr, hno⟩ := hinv
  refine ⟨?_, ?_, ?_, ?_⟩
  · by_cases hempty :
        (st.sources.filter (fun s => !(st.library.sources.any (fun ls => ls.id == s.id)))).length = 0
    · simpa [saveSourcesAll, hempty, libraryInv] using ⟨hs, hdr, hno⟩
    · have hm := mergeSources_ids_nodup st.library.sources st.sources hs hws
      unfold mergeSources at hm
      rw [List.map_append] at hm
      simpa [saveSourcesAll, hempty, libraryInv, uniqueSourceIds, uniqueDraftIds] using
        ⟨hm, hdr, hno⟩
  · by_cases hdraft : st.draft = ""
    · simpa [saveDraft, hdraft, libraryInv] using ⟨hs, hdr, hno⟩
    · have hnew : ((st.library.drafts.map (fun d => d.id)) ++ [newId]).Nodup :=
        nodup_append_single_of _ _ hdr hd
      simpa [saveDraft, hdraft, libraryInv, uniqueSourceIds, uniqueDraftIds] using
        ⟨hs, hnew, hno⟩
  · by_cases hni : jsTrim st.noteInput = ""
    · simpa [addNote, hni, libraryInv] using ⟨hs, hdr, hno⟩
    · have hnew : ((st.library.notes.map (fun s => s.id)) ++ [newId]).Nodup :=
        nodup_append_single_of _ _ hno hn
      simpa [addNote, hni, libraryInv, uniqueSourceIds, uniqueDraftIds] using
        ⟨hs, hdr, hnew⟩
  · unfold deleteLibItem deleteFromLib
    by_cases h1 : category = "sources"
    · simpa [h1, libraryInv, uniqueSourceIds, uniqueDraftIds] using
        ⟨nodup_map_filter _ _ _ hs, hdr, hno⟩
    · by_cases h2 : category = "drafts"
      · simpa [h1, h2, libraryInv, uniqueSourceIds, uniqueDraftIds] using
          ⟨hs, nodup_map_filter _ _ _ hdr, hno⟩
      · by_cases h3 : category = "notes"
        · simpa [h1, h2, h3, libraryInv, uniqueSourceIds, uniqueDraftIds] using
            ⟨hs, hdr, nodup_map_filter _ _ _ hno⟩
        · simpa [h1, h2, h3, libraryInv] using ⟨hs, hdr, hno⟩

theorem library_ops_preserve_unique_witness :
    libraryInv (saveSourcesAll stLib).library ∧
    libraryInv (saveDraft "n1" "2026-03-03" stLib).library ∧
    libraryInv (addNote "n1" "2026-03-03" stLib).library ∧
    libraryInv (deleteLibItem "drafts" "zzz" stLib).library :=
  library_ops_preserve_unique stLib "n1" "2026-03-03" "drafts" "zzz"
    (by unfold libraryInv uniqueSourceIds uniqueDraftIds
        refine ⟨?_, ?_, ?_⟩ <;> decide)
    (by decide) (by decide) (by decide)
